import Mathlib

/-!
Verification development for a retrieval-augmented conversational document
assistant (FastAPI + langchain application).  The Python sources are embedded
shallowly: dictionaries become association lists, pydantic models become
structures, the external collaborators (vector store, LLM, embeddings, file
system) become explicit oracle parameters, and exceptions become `Except` /
`Option` values or explicit failure flags.  Every definition is translated
from the corresponding Python function; modelling decisions forced by the
Python runtime (JSON serializability, truthiness) are documented at the
definition they affect.
-/

namespace DeepseekBot

/-- Association-list lookup, modelling Python `dict` membership / indexing
(`key in d`, `d[key]`). -/
def lookupAssoc {α : Type} : List (String × α) → String → Option α
  | [], _ => none
  | (k, v) :: rest, key => if k = key then some v else lookupAssoc rest key

/-- Association-list update, modelling Python `d[key] = value`: overwrite the
existing binding in place, otherwise append a new one. -/
def insertAssoc {α : Type} : List (String × α) → String → α → List (String × α)
  | [], k, v => [(k, v)]
  | (k', v') :: rest, k, v =>
    if k' = k then (k, v) :: rest else (k', v') :: insertAssoc rest k v

/-- `models/schemas.py` — `Source`: one retrieved-chunk attribution attached
to a generated answer. -/
structure Source where
  document_name : String
  page_number : Nat
  content_snippet : String
deriving DecidableEq, Repr

/-- `models/schemas.py` — `ChatResponse`: one completed chat turn as stored in
a conversation's `messages` list and persisted to disk. -/
structure ChatResponse where
  response : String
  sources : List Source
  conversation_id : String
  user_message : String
deriving DecidableEq, Repr

/-- Role of a langchain chat message (`SystemMessage` / `HumanMessage` /
`AIMessage` in `langchain_core.messages`). -/
inductive Role where
  | system
  | human
  | ai
deriving DecidableEq, Repr

/-- A langchain chat message object: the entries of a conversation's
`history` list and of the prompt passed to the model. -/
structure LCMessage where
  role : Role
  content : String
deriving DecidableEq, Repr

/-- One in-memory conversation as kept in `ChatService.conversations`
(`{'id': ..., 'vectorstore': ..., 'history': [...], 'messages': [...]}`).
The `vectorstore` entry is an opaque live handle to the shared Chroma index,
recreated on every load; it carries no conversation state, so it is not part
of the embedded record. -/
structure Conversation where
  id : String
  history : List LCMessage
  messages : List ChatResponse
deriving DecidableEq, Repr

/-- The in-memory session map `ChatService.conversations`, keyed by
conversation id. -/
abbrev ConvStore := List (String × Conversation)

/-- The on-disk content of one `<conversation_id>.json` file in the
`conversations` directory: either a well-formed record (parsed back into the
conversation data) or an unparsable file (a `json.dump` that raised after the
file was opened for writing leaves truncated, invalid JSON behind). -/
inductive SavedFile where
  | valid (rec : Conversation)
  | corrupt
deriving DecidableEq, Repr

/-- The `conversations` directory on disk, keyed by conversation id
(the file name without its `.json` suffix). -/
abbrev DiskStore := List (String × SavedFile)

/-- What `json.dump` does to one conversation's data in
`ChatService._save_conversation`.  The dict written is
`{'id': str, 'history': [...], 'messages': [dicts]}` — `vectorstore` is
popped first and each `ChatResponse` is converted with `model_dump()`.
Modelling note forced by the Python runtime: the entries of `history` are
live langchain `HumanMessage` / `AIMessage` objects (appended as such in
`get_streaming_response` and never converted), and the stdlib `json.dump`
is called without a `default` encoder, so it raises `TypeError` on the first
history entry; the file, already opened with mode `'w'` (truncating), is left
holding invalid partial JSON.  The dump therefore succeeds exactly when
`history` is empty, and otherwise yields an unparsable file. -/
def serialize_conversation (conv : Conversation) : SavedFile :=
  if conv.history.isEmpty then .valid conv else .corrupt

/-- `ChatService._save_conversation`: look the conversation up in the
in-memory map (a missing id saves nothing), serialize it and write the result
over `<id>.json`; a serialization error is caught and only logged. -/
def save_conversation (conversations : ConvStore) (disk : DiskStore)
    (conversation_id : String) : DiskStore :=
  match lookupAssoc conversations conversation_id with
  | none => disk
  | some conv => insertAssoc disk conversation_id (serialize_conversation conv)

/-- `ChatService._load_conversations`: read every `.json` file of the
conversations directory, keyed by file name; a file whose parse raises is
skipped with a logged warning and does not abort the load of the others.
(The fresh Chroma handle attached to each loaded conversation is the opaque
`vectorstore` entry, outside the embedded record.) -/
def load_conversations (disk : DiskStore) : ConvStore :=
  disk.filterMap fun entry =>
    match entry.2 with
    | .valid rec => some (entry.1, rec)
    | .corrupt => none

/-- Python truthiness of the `conversation_id : Optional[str]` argument, as
tested by `if conversation_id and ...` and `conversation_id or str(uuid4())`:
`None` and the empty string are falsy. -/
def pyTruthy : Option String → Bool
  | none => false
  | some s => !(s = "")

/-- The lookup performed by `ChatService._get_or_create_conversation`:
`if conversation_id and conversation_id in self.conversations`. -/
def existing_conversation (conversations : ConvStore)
    (conversation_id : Option String) : Option Conversation :=
  if pyTruthy conversation_id then
    lookupAssoc conversations (conversation_id.getD "")
  else none

/-- `ChatService._get_or_create_conversation`: return the existing
conversation when the (truthy) id is known; otherwise create a fresh empty
conversation under `conversation_id or str(uuid4())` — `fresh_id` stands for
the `uuid4()` draw — store it in the in-memory map and save it to disk. -/
def get_or_create_conversation (conversations : ConvStore) (disk : DiskStore)
    (conversation_id : Option String) (fresh_id : String) :
    Conversation × ConvStore × DiskStore :=
  match existing_conversation conversations conversation_id with
  | some conv => (conv, conversations, disk)
  | none =>
    let new_id := if pyTruthy conversation_id then conversation_id.getD "" else fresh_id
    let conv : Conversation := ⟨new_id, [], []⟩
    let conversations2 := insertAssoc conversations new_id conv
    (conv, conversations2, save_conversation conversations2 disk new_id)

/-- `models/schemas.py` — `DocumentInfo`: one entry of the document catalog.
`upload_date` (a `datetime`) is opaque to every operation and is carried as an
abstract timestamp. -/
structure DocumentInfo where
  id : String
  filename : String
  document_type : String
  upload_date : Nat
  total_pages : Option Nat
  status : String
  embedding_status : String
  error : Option String
deriving DecidableEq, Repr

/-- The document catalog `DocumentProcessor.metadata`, keyed by document id
(persisted in `metadata.json`; the catalog dict and its on-disk copy are kept
in lock step by `_save_metadata`, so one map models both). -/
abbrev Catalog := List (String × DocumentInfo)

/-- `DocumentProcessor._process_csv`: `pd.read_csv`, then
`(df.to_string(), max(1, len(df) // 100))` — each 100 data rows count as one
page, with a minimum of one page.  `csv_text` stands for `df.to_string()` and
`nrows` for `len(df)` (the number of data rows). -/
def process_csv (csv_text : String) (nrows : Nat) : String × Nat :=
  (csv_text, max 1 (nrows / 100))

/-- Split a character list on a separator character, keeping empty pieces —
the behavior of Python `str.split(sep)` at character level. -/
def split_on_char (sep : Char) : List Char → List (List Char)
  | [] => [[]]
  | c :: rest =>
    if c = sep then [] :: split_on_char sep rest
    else
      match split_on_char sep rest with
      | [] => [[c]]
      | seg :: segs => (c :: seg) :: segs

/-- `file.filename.split('.')[-1]`, the `document_type` stored on ingest. -/
def document_type_of (filename : String) : String :=
  ((split_on_char '.' filename.data).map List.asString).getLastD ""

/-- Result of `DocumentProcessor.process_document`: the value returned to the
caller (or the exception message re-raised to it) together with the document
catalog afterwards. -/
structure IngestResult where
  result : Except String DocumentInfo
  catalog : Catalog
deriving Repr

/-- `DocumentProcessor.process_document` from the point where the upload has
been written to disk.  `extracted` is the outcome of the extension dispatch
to `_process_pdf` / `_process_docx` / `_process_json` / `_process_csv`
(`none` when the extension is unsupported or the extractor raised), giving
the extracted text and the estimated page count; `chunks` is the output of
the external `RecursiveCharacterTextSplitter`; `embed_ok` tells whether the
`vectorstore.add_texts` call (the embedding of every chunk) succeeded.  On
successful extraction a `DocumentInfo` with `status="processed"` and
`embedding_status="pending"` is stored in the catalog; the embedding step
then updates `embedding_status` to `"completed"` or to `"failed"` — in the
failure case only that one key is updated, the record is kept, and the
exception is re-raised to the caller. -/
def process_document (catalog : Catalog) (doc_id : String) (filename : String)
    (upload_date : Nat) (extracted : Option (String × Nat))
    (_chunks : List String) (embed_ok : Bool) : IngestResult :=
  match extracted with
  | none => ⟨.error "Unsupported file type. File must be one of: PDF, DOCX, JSON, CSV", catalog⟩
  | some (_text, total_pages) =>
    let doc_info : DocumentInfo :=
      { id := doc_id
        filename := filename
        document_type := document_type_of filename
        upload_date := upload_date
        total_pages := some total_pages
        status := "processed"
        embedding_status := "pending"
        error := none }
    let catalog1 := insertAssoc catalog doc_id doc_info
    if embed_ok then
      let doc_info2 := { doc_info with embedding_status := "completed" }
      ⟨.ok doc_info2, insertAssoc catalog1 doc_id doc_info2⟩
    else
      ⟨.error "Failed to create embeddings",
        insertAssoc catalog1 doc_id { doc_info with embedding_status := "failed" }⟩

/-- Whether a string starts with the path separator, i.e. Python
`s.startswith('/')`. -/
def head_is_slash (s : String) : Bool :=
  match s.data with
  | [] => false
  | c :: _ => c = '/'

/-- Whether a string ends with the path separator, i.e. Python
`s.endswith('/')`. -/
def last_is_slash (s : String) : Bool :=
  match s.data.getLast? with
  | none => false
  | some c => c = '/'

/-- POSIX `os.path.join` on two components, as executed by
`os.path.join(self.export_dir, filename)`: an absolute second component
discards the first; otherwise a single separator is inserted unless the first
component is empty or already ends in one. -/
def posix_join (a b : String) : String :=
  if head_is_slash b then b
  else if a = "" ∨ last_is_slash a then a ++ b
  else a ++ "/" ++ b

/-- `ExportService.get_export_path`: `os.path.join(self.export_dir, filename)`
with no sanitization of `filename`. -/
def get_export_path (export_dir filename : String) : String :=
  posix_join export_dir filename

/-- `main.py` — `download_file`: resolve the requested filename through
`get_export_path`, answer 404 (`none`) when `os.path.exists` fails on the
resolved path, and otherwise serve the file at exactly that path.  `files`
is the file-existence predicate of the host file system. -/
def download_file (files : String → Bool) (export_dir filename : String) :
    Option String :=
  if files (get_export_path export_dir filename) then
    some (get_export_path export_dir filename)
  else none

/-- The raw `/`-separated segments of a path string. -/
def path_segments (p : String) : List String :=
  (split_on_char '/' p.data).map List.asString

/-- Resolution of `..` / `.` / empty path segments against a stack of already
resolved segments, used to talk about which directory a path points into. -/
def resolve_segments (acc : List String) : List String → List String
  | [] => acc
  | seg :: rest =>
    if seg = ".." then resolve_segments acc.dropLast rest
    else if seg = "" ∨ seg = "." then resolve_segments acc rest
    else resolve_segments (acc ++ [seg]) rest

/-- The list of real path segments a path string finally points at, after
resolving `..`, `.` and duplicate separators. -/
def resolve_path (p : String) : List String :=
  resolve_segments [] (path_segments p)

/-- One document returned by `vectorstore.similarity_search`: its text and
the two metadata keys the chat service reads (`metadata.get(...)` returns
`None`-like absence when a key is missing, modelled with `Option`). -/
structure RetrievedDoc where
  page_content : String
  document_name : Option String
  page_number : Option Nat
deriving DecidableEq, Repr

/-- The `Source` built for one retrieved document in
`ChatService.get_streaming_response`:
`document_name=doc.metadata.get("document_name", "Unknown")`,
`page_number=doc.metadata.get("page_number", 1)`,
`content_snippet=doc.page_content[:200] + "..."`. -/
def mkSource (doc : RetrievedDoc) : Source :=
  { document_name := doc.document_name.getD "Unknown"
    page_number := doc.page_number.getD 1
    content_snippet := doc.page_content.take 200 ++ "..." }

/-- One item yielded by `self.llm.astream(messages)`: either a chunk carrying
a `content` attribute or one without (`hasattr(chunk, 'content')` fails). -/
inductive GenChunk where
  | content (s : String)
  | noContent
deriving DecidableEq, Repr

/-- One event of the response stream.  Each yielded item of
`get_streaming_response` is the JSON serialization (plus a trailing newline)
of a dict with exactly these four keys; the record models that dict. -/
structure StreamEvent where
  response : String
  sources : List Source
  conversation_id : String
  user_message : String
deriving DecidableEq, Repr

/-- The external world of one chat call: whether the Chroma handle creation
inside session resolution succeeds (it can only run, and hence only fail, on
the create path), the outcome of `similarity_search` (`none` = it raised),
the chunk sequence produced by `llm.astream` before it either completes
(`genOk = true`) or raises (`genOk = false`), the `uuid4()` draw used for a
newly created conversation id, and the `uuid4()` draw used inside the error
handler when no conversation id was resolved. -/
structure ChatEnv where
  resolveOk : Bool
  retrieval : Option (List RetrievedDoc)
  genChunks : List GenChunk
  genOk : Bool
  freshConvId : String
  errorFreshId : String
deriving Repr

/-- The fixed apologetic message of the in-band error event. -/
def apology_message : String :=
  "I apologize, but I encountered an error while processing your request."

/-- The fixed placeholder emitted before any model output exists. -/
def thinking_response : String :=
  "<think>Analyzing the context and formulating a response...</think>\n"

/-- The error event built in the outer `except` handler of
`get_streaming_response`. -/
def error_event (sources : List Source) (conversation_id message : String) :
    StreamEvent :=
  ⟨apology_message, sources, conversation_id, message⟩

/-- `ChatService.system_message`, the fixed system instruction. -/
def system_message : LCMessage :=
  ⟨.system, "You are a helpful AI assistant that answers questions based on the provided context. \nAlways provide detailed, accurate responses and cite your sources when possible. \nWhen you're thinking or analyzing, start your response with '<think>' and end with '</think>' before providing your final answer."⟩

/-- Python `l[-4:]`: the last (at most) `n` elements of a list. -/
def lastN {α : Type} (n : Nat) (l : List α) : List α :=
  l.drop (l.length - n)

/-- The prompt list passed to `self.llm.astream`: the system message, one
synthetic user turn `"Context: {context}\n\nQuestion: {message}"`, and — when
the history is nonempty — `history[-4:]`, the last two exchanges. -/
def prompt_messages (context message : String) (history : List LCMessage) :
    List LCMessage :=
  let base : List LCMessage :=
    [system_message, ⟨.human, "Context: " ++ context ++ "\n\nQuestion: " ++ message⟩]
  if history.isEmpty then base else base ++ lastN 4 history

/-- The events yielded inside the `async for` loop over `llm.astream`: each
chunk that has a `content` attribute is appended to the running
`full_response` and one event carrying the whole accumulated text is yielded;
chunks without `content` yield nothing. -/
def streamingEvents (acc : String) (sources : List Source)
    (conversation_id message : String) : List GenChunk → List StreamEvent
  | [] => []
  | .content s :: rest =>
    ⟨acc ++ s, sources, conversation_id, message⟩ ::
      streamingEvents (acc ++ s) sources conversation_id message rest
  | .noContent :: rest => streamingEvents acc sources conversation_id message rest

/-- The final value of `full_response` after the `async for` loop. -/
def accumulate (acc : String) : List GenChunk → String
  | [] => acc
  | .content s :: rest => accumulate (acc ++ s) rest
  | .noContent :: rest => accumulate acc rest

/-- The `content` strings of the chunks that carry one, in order. -/
def contentsOf : List GenChunk → List String
  | [] => []
  | .content s :: rest => s :: contentsOf rest
  | .noContent :: rest => contentsOf rest

/-- The outcome of one chat call: the yielded event sequence, the in-memory
session map and the conversations directory afterwards, and the prompt that
was passed to `llm.astream` (`none` when generation was never invoked). -/
structure ChatOutcome where
  events : List StreamEvent
  conversations : ConvStore
  disk : DiskStore
  llmPrompt : Option (List LCMessage)
deriving Repr

/-- `ChatService.get_streaming_response` after the conversation has been
resolved: retrieval, source construction, the thinking event, prompt
assembly, the streaming loop, and either the successful completion (append
one `ChatResponse` and two history entries, save) or the in-band error event
with the sources computed so far; on any failure nothing is appended and
nothing further is saved. -/
def after_resolve (conversations : ConvStore) (disk : DiskStore)
    (message : String) (env : ChatEnv) (conv : Conversation) : ChatOutcome :=
  match env.retrieval with
  | none => ⟨[error_event [] conv.id message], conversations, disk, none⟩
  | some docs =>
    let context := String.intercalate "\n" (docs.map (·.page_content))
    let sources := docs.map mkSource
    let thinkingEv : StreamEvent := ⟨thinking_response, sources, conv.id, message⟩
    let prompt := prompt_messages context message conv.history
    let streamEvs := streamingEvents "" sources conv.id message env.genChunks
    let full_response := accumulate "" env.genChunks
    if env.genOk then
      let chat_response : ChatResponse := ⟨full_response, sources, conv.id, message⟩
      let conv2 : Conversation :=
        { conv with
          history := conv.history ++ [⟨.human, message⟩, ⟨.ai, full_response⟩]
          messages := conv.messages ++ [chat_response] }
      let conversations2 := insertAssoc conversations conv.id conv2
      ⟨thinkingEv :: streamEvs, conversations2,
        save_conversation conversations2 disk conv.id, some prompt⟩
    else
      ⟨thinkingEv :: (streamEvs ++ [error_event sources conv.id message]),
        conversations, disk, some prompt⟩

/-- `ChatService.get_streaming_response`.  Session resolution runs
`_get_or_create_conversation`; when that needs to create a conversation and
the Chroma handle creation raises (`env.resolveOk = false`), neither
`sources` nor `conv_id` is bound yet and the outer handler yields one error
event with empty sources and a fresh `uuid4()` id.  Otherwise the call
proceeds as `after_resolve`. -/
def get_streaming_response (conversations : ConvStore) (disk : DiskStore)
    (message : String) (conversation_id : Option String) (env : ChatEnv) :
    ChatOutcome :=
  if (existing_conversation conversations conversation_id).isSome || env.resolveOk then
    let r := get_or_create_conversation conversations disk conversation_id env.freshConvId
    after_resolve r.2.1 r.2.2 message env r.1
  else
    ⟨[error_event [] env.errorFreshId message], conversations, disk, none⟩

/-- The conversation one chat call operates on, when resolution succeeds:
the existing session for a known truthy id, otherwise the freshly created
empty one (under the supplied id or the fresh draw), and `none` when the
creation step fails. -/
def resolved_conversation (conversations : ConvStore) (disk : DiskStore)
    (conversation_id : Option String) (env : ChatEnv) : Option Conversation :=
  if (existing_conversation conversations conversation_id).isSome || env.resolveOk then
    some (get_or_create_conversation conversations disk conversation_id env.freshConvId).1
  else none

/-! ### Library lemmas about the embedded operations -/

theorem lookupAssoc_insertAssoc {α : Type} (l : List (String × α)) (k key : String) (v : α) :
    lookupAssoc (insertAssoc l k v) key = if k = key then some v else lookupAssoc l key := by
  induction l with
  | nil => simp [insertAssoc, lookupAssoc]
  | cons hd tl ih =>
    obtain ⟨k', v'⟩ := hd
    by_cases h1 : k' = k
    · subst h1
      by_cases h2 : k' = key <;> simp [insertAssoc, lookupAssoc, h2]
    · by_cases h2 : k' = key
      · subst h2
        have hk : ¬ k = k' := fun h => h1 h.symm
        simp [insertAssoc, lookupAssoc, h1, hk]
      · simp [insertAssoc, lookupAssoc, h1, h2, ih]

theorem mem_streamingEvents {acc : String} {sources : List Source}
    {cid msg : String} {chunks : List GenChunk} {e : StreamEvent}
    (h : e ∈ streamingEvents acc sources cid msg chunks) :
    e.sources = sources ∧ e.conversation_id = cid ∧ e.user_message = msg := by
  induction chunks generalizing acc with
  | nil => simp [streamingEvents] at h
  | cons c rest ih =>
    cases c with
    | content s =>
      simp only [streamingEvents, List.mem_cons] at h
      rcases h with h | h
      · subst h; exact ⟨rfl, rfl, rfl⟩
      · exact ih h
    | noContent =>
      simp only [streamingEvents] at h
      exact ih h

theorem scanl_eq_cons_tail {α β : Type} (f : β → α → β) (b : β) (l : List α) :
    List.scanl f b l = b :: (List.scanl f b l).tail := by
  cases l <;> simp [List.scanl]

theorem streamingEvents_map_response (sources : List Source) (cid msg : String)
    (chunks : List GenChunk) : ∀ acc : String,
    (streamingEvents acc sources cid msg chunks).map (·.response)
      = (List.scanl (fun a b => a ++ b) acc (contentsOf chunks)).tail := by
  induction chunks with
  | nil => intro acc; simp [streamingEvents, contentsOf]
  | cons c rest ih =>
    intro acc
    cases c with
    | content s =>
      simp only [streamingEvents, contentsOf, List.map_cons, List.scanl_cons,
        List.nil_append, List.tail_cons]
      rw [ih (acc ++ s)]
      exact (scanl_eq_cons_tail _ _ _).symm
    | noContent =>
      simp only [streamingEvents, contentsOf]
      exact ih acc

theorem streamingEvents_head_response (sources : List Source) (cid msg : String)
    (chunks : List GenChunk) : ∀ (acc : String) (e : StreamEvent),
    (streamingEvents acc sources cid msg chunks).head? = some e →
    ∃ t, e.response = acc ++ t := by
  induction chunks with
  | nil => intro acc e h; simp [streamingEvents] at h
  | cons c rest ih =>
    intro acc e h
    cases c with
    | content s =>
      simp only [streamingEvents, List.head?_cons, Option.some.injEq] at h
      exact ⟨s, by rw [← h]⟩
    | noContent =>
      simp only [streamingEvents] at h
      exact ih acc e h

theorem streamingEvents_chain' (sources : List Source) (cid msg : String)
    (chunks : List GenChunk) : ∀ acc : String,
    List.Chain' (fun e1 e2 => ∃ t, e2.response = e1.response ++ t)
      (streamingEvents acc sources cid msg chunks) := by
  induction chunks with
  | nil => intro acc; simp [streamingEvents]
  | cons c rest ih =>
    intro acc
    cases c with
    | content s =>
      simp only [streamingEvents]
      refine List.chain'_cons'.mpr ⟨?_, ih (acc ++ s)⟩
      intro e2 h2
      exact streamingEvents_head_response sources cid msg rest (acc ++ s) e2 h2
    | noContent =>
      simp only [streamingEvents]
      exact ih acc

theorem after_resolve_event_fields (conversations : ConvStore) (disk : DiskStore)
    (message : String) (env : ChatEnv) (conv : Conversation) :
    ∀ e ∈ (after_resolve conversations disk message env conv).events,
      e.conversation_id = conv.id ∧ e.user_message = message := by
  intro e he
  unfold after_resolve at he
  cases hr : env.retrieval with
  | none =>
    rw [hr] at he
    simp only [List.mem_singleton] at he
    subst he
    exact ⟨rfl, rfl⟩
  | some docs =>
    rw [hr] at he
    by_cases hg : env.genOk = true
    · simp only [hg, if_true, List.mem_cons] at he
      rcases he with he | he
      · subst he; exact ⟨rfl, rfl⟩
      · exact (mem_streamingEvents he).2
    · simp only [hg, if_false, Bool.false_eq_true, List.mem_cons, List.mem_append,
        List.mem_singleton] at he
      rcases he with he | he | he | he
      · subst he; exact ⟨rfl, rfl⟩
      · exact (mem_streamingEvents he).2
      · subst he; exact ⟨rfl, rfl⟩
      · simp at he

theorem get_streaming_response_resolved {conversations : ConvStore} {disk : DiskStore}
    {conversation_id : Option String} {env : ChatEnv} {conv : Conversation}
    (message : String)
    (h : resolved_conversation conversations disk conversation_id env = some conv) :
    get_streaming_response conversations disk message conversation_id env =
      after_resolve
        (get_or_create_conversation conversations disk conversation_id env.freshConvId).2.1
        (get_or_create_conversation conversations disk conversation_id env.freshConvId).2.2
        message env conv := by
  unfold resolved_conversation at h
  unfold get_streaming_response
  by_cases hc : ((existing_conversation conversations conversation_id).isSome || env.resolveOk) = true
  · rw [if_pos hc] at h ⊢
    dsimp only
    rw [Option.some.inj h]
  · rw [if_neg hc] at h
    exact absurd h (by simp)

theorem get_or_create_conversation_store (conversations : ConvStore) (disk : DiskStore)
    (conversation_id : Option String) (fresh_id : String) :
    (∀ k c', lookupAssoc (get_or_create_conversation conversations disk conversation_id fresh_id).2.1 k
        = some c' →
      lookupAssoc conversations k = some c' ∨ (c'.history = [] ∧ c'.messages = []))
    ∧ (∀ k r, lookupAssoc (get_or_create_conversation conversations disk conversation_id fresh_id).2.2 k
        = some r →
      lookupAssoc disk k = some r ∨ r = SavedFile.valid ⟨k, [], []⟩) := by
  unfold get_or_create_conversation
  cases he : existing_conversation conversations conversation_id with
  | some conv =>
    exact ⟨fun k c' h => Or.inl h, fun k r h => Or.inl h⟩
  | none =>
    constructor
    · intro k c' h
      simp only at h
      rw [lookupAssoc_insertAssoc] at h
      by_cases hk : (if pyTruthy conversation_id then conversation_id.getD "" else fresh_id) = k
      · rw [if_pos hk] at h
        right
        rw [← Option.some.inj h]
        exact ⟨rfl, rfl⟩
      · rw [if_neg hk] at h
        exact Or.inl h
    · intro k r h
      simp only [save_conversation] at h
      rw [lookupAssoc_insertAssoc, if_pos rfl] at h
      rw [lookupAssoc_insertAssoc] at h
      by_cases hk : (if pyTruthy conversation_id then conversation_id.getD "" else fresh_id) = k
      · rw [if_pos hk] at h
        right
        rw [← Option.some.inj h]
        simp [serialize_conversation, hk]
      · rw [if_neg hk] at h
        exact Or.inl h

theorem get_streaming_response_unresolved {conversations : ConvStore} {disk : DiskStore}
    {conversation_id : Option String} {env : ChatEnv} (message : String)
    (h : resolved_conversation conversations disk conversation_id env = none) :
    get_streaming_response conversations disk message conversation_id env =
      ⟨[error_event [] env.errorFreshId message], conversations, disk, none⟩ := by
  unfold resolved_conversation at h
  unfold get_streaming_response
  by_cases hc : ((existing_conversation conversations conversation_id).isSome || env.resolveOk) = true
  · rw [if_pos hc] at h
    exact absurd h (by simp)
  · rw [if_neg hc]

theorem after_resolve_retrieval_none {env : ChatEnv} (conversations : ConvStore)
    (disk : DiskStore) (message : String) (conv : Conversation)
    (h : env.retrieval = none) :
    after_resolve conversations disk message env conv
      = ⟨[error_event [] conv.id message], conversations, disk, none⟩ := by
  unfold after_resolve
  rw [h]

theorem after_resolve_events_shape {env : ChatEnv} (conversations : ConvStore)
    (disk : DiskStore) (message : String) (conv : Conversation)
    (docs : List RetrievedDoc) (h : env.retrieval = some docs) :
    ∃ rest, (after_resolve conversations disk message env conv).events
      = ⟨thinking_response, docs.map mkSource, conv.id, message⟩ ::
        (streamingEvents "" (docs.map mkSource) conv.id message env.genChunks ++ rest) := by
  unfold after_resolve
  rw [h]
  by_cases hg : env.genOk = true
  · exact ⟨[], by simp [hg]⟩
  · exact ⟨[error_event (docs.map mkSource) conv.id message], by simp [hg]⟩

theorem after_resolve_llmPrompt {env : ChatEnv} (conversations : ConvStore)
    (disk : DiskStore) (message : String) (conv : Conversation)
    (docs : List RetrievedDoc) (h : env.retrieval = some docs) :
    (after_resolve conversations disk message env conv).llmPrompt
      = some (prompt_messages (String.intercalate "\n" (docs.map (·.page_content)))
          message conv.history) := by
  unfold after_resolve
  rw [h]
  by_cases hg : env.genOk = true <;> simp [hg]

theorem after_resolve_event_sources {env : ChatEnv} (conversations : ConvStore)
    (disk : DiskStore) (message : String) (conv : Conversation)
    (docs : List RetrievedDoc) (h : env.retrieval = some docs) :
    ∀ e ∈ (after_resolve conversations disk message env conv).events,
      e.sources = docs.map mkSource := by
  intro e he
  unfold after_resolve at he
  rw [h] at he
  by_cases hg : env.genOk = true
  · simp only [hg, if_true, List.mem_cons] at he
    rcases he with he | he
    · subst he; rfl
    · exact (mem_streamingEvents he).1
  · simp only [hg, if_false, Bool.false_eq_true, List.mem_cons, List.mem_append,
      List.mem_singleton] at he
    rcases he with he | he | he | he
    · subst he; rfl
    · exact (mem_streamingEvents he).1
    · subst he; rfl
    · simp at he

theorem after_resolve_stores_on_failure {env : ChatEnv} (conversations : ConvStore)
    (disk : DiskStore) (message : String) (conv : Conversation)
    (h : env.retrieval = none ∨ env.genOk = false) :
    (after_resolve conversations disk message env conv).conversations = conversations
    ∧ (after_resolve conversations disk message env conv).disk = disk := by
  unfold after_resolve
  cases hr : env.retrieval with
  | none => exact ⟨rfl, rfl⟩
  | some docs =>
    have hg : env.genOk = false := by
      rcases h with h | h
      · rw [hr] at h; exact absurd h (by simp)
      · exact h
    simp [hg]

/-- The failure condition of one chat call: session resolution raised, or
`similarity_search` raised, or `llm.astream` raised (possibly mid-stream). -/
def chat_fails (conversations : ConvStore) (disk : DiskStore)
    (conversation_id : Option String) (env : ChatEnv) : Prop :=
  resolved_conversation conversations disk conversation_id env = none
  ∨ env.retrieval = none ∨ env.genOk = false

/-- The `sources` the error event must carry: the sources computed so far,
which exist exactly when resolution and retrieval both succeeded. -/
def expected_error_sources (conversations : ConvStore) (disk : DiskStore)
    (conversation_id : Option String) (env : ChatEnv) : List Source :=
  match resolved_conversation conversations disk conversation_id env, env.retrieval with
  | some _, some docs => docs.map mkSource
  | _, _ => []

/-- The conversation id the error event must carry: the resolved session's
id, or the error handler's fresh uuid when resolution itself failed. -/
def expected_error_cid (conversations : ConvStore) (disk : DiskStore)
    (conversation_id : Option String) (env : ChatEnv) : String :=
  match resolved_conversation conversations disk conversation_id env with
  | some conv => conv.id
  | none => env.errorFreshId

/-- The terminal-error contract of one failed chat call: the event stream is
some prefix of ordinary (non-error) events followed by exactly one error
event carrying the fixed apologetic message, the sources computed so far and
the relevant conversation id; and neither the in-memory session map nor the
conversations directory gains anything beyond a freshly created empty
session — no partial turn is appended or persisted. -/
def error_terminal_outcome (conversations : ConvStore) (disk : DiskStore)
    (message : String) (conversation_id : Option String) (env : ChatEnv) : Prop :=
  (∃ pre, (get_streaming_response conversations disk message conversation_id env).events
      = pre ++ [error_event (expected_error_sources conversations disk conversation_id env)
          (expected_error_cid conversations disk conversation_id env) message]
    ∧ ∀ e ∈ pre, ¬ e.response = apology_message)
  ∧ (∀ k c', lookupAssoc
        (get_streaming_response conversations disk message conversation_id env).conversations k
        = some c' →
      lookupAssoc conversations k = some c' ∨ (c'.history = [] ∧ c'.messages = []))
  ∧ (∀ k r, lookupAssoc
        (get_streaming_response conversations disk message conversation_id env).disk k = some r →
      lookupAssoc disk k = some r ∨ r = SavedFile.valid ⟨k, [], []⟩)

/-! ### Claim theorems -/

/-- Claim C1 — the round trip fails on the code: a session holding one
completed chat turn has live langchain message objects in `history`, which
`json.dump` (called without a `default` encoder in `_save_conversation`)
cannot serialize; the resulting file is unparsable and `_load_conversations`
skips it, so no session at all is reproduced for that id.  The second
conjunct shows the round trip does work for a freshly created session with no
completed turn, so the loss is specific to non-empty histories. -/
theorem save_then_load_drops_completed_turn :
    lookupAssoc
      (load_conversations
        (save_conversation
          [("c1", ⟨"c1", [⟨.human, "hi"⟩, ⟨.ai, "hello"⟩], [⟨"hello", [], "c1", "hi"⟩]⟩)]
          [] "c1")) "c1" = none
    ∧ lookupAssoc
        (load_conversations (save_conversation [("c0", ⟨"c0", [], []⟩)] [] "c0")) "c0"
        = some ⟨"c0", [], []⟩ := by
  exact ⟨by decide, by decide⟩

/-- Claim C2 (counterexample) — after an embedding failure the catalog record
exists but its `error` field is `none`: `process_document` only ever updates
the `embedding_status` key of the stored record and never writes `error`, so
the claimed non-empty `error` field does not hold. -/
theorem ingest_embedding_failure_error_is_none :
    (lookupAssoc (process_document [] "d1" "report.csv" 7 (some ("rows", 1))
        ["rows"] false).catalog "d1").map (·.error) = some none
    ∧ lookupAssoc (process_document [] "d1" "report.csv" 7 (some ("rows", 1))
        ["rows"] false).catalog "d1"
      = some ⟨"d1", "report.csv", "csv", 7, some 1, "processed", "failed", none⟩ := by
  exact ⟨by decide, by decide⟩

/-- Claim C2 (amended) — for every ingest call whose embedding step fails
after successful text extraction, the catalog keeps a record with
`status = "processed"`, `embedding_status = "failed"` and `error` left unset
(`none`), the record is not deleted, and the failure surfaces to the caller
as a request-level error. -/
theorem ingest_embedding_failure_keeps_record
    (catalog : Catalog) (doc_id filename text : String) (upload_date : Nat)
    (pages : Nat) (chunks : List String) :
    ∃ rec, lookupAssoc (process_document catalog doc_id filename upload_date
          (some (text, pages)) chunks false).catalog doc_id = some rec
      ∧ rec.status = "processed"
      ∧ rec.embedding_status = "failed"
      ∧ rec.error = none
      ∧ (process_document catalog doc_id filename upload_date
          (some (text, pages)) chunks false).result = .error "Failed to create embeddings" := by
  refine ⟨⟨doc_id, filename, document_type_of filename, upload_date, some pages,
    "processed", "failed", none⟩, ?_, rfl, rfl, rfl, rfl⟩
  simp [process_document, lookupAssoc_insertAssoc]

/-- Claim C6 (counterexample) — the empty string is a possible known
conversation id (a file named `.json` loads under id `""`), but Python's
truthiness test `if conversation_id and conversation_id in self.conversations`
treats it as absent: two calls with the known id `""` return two sessions
under fresh distinct uuids and create a new session, instead of returning the
existing session twice. -/
theorem get_or_create_known_empty_id_not_reused :
    let store0 : ConvStore := [("", ⟨"", [⟨.human, "x"⟩], []⟩)]
    let r1 := get_or_create_conversation store0 [] (some "") "u1"
    let r2 := get_or_create_conversation r1.2.1 r1.2.2 (some "") "u2"
    r1.1.id = "u1" ∧ r2.1.id = "u2" ∧ ¬ r1.1.id = r2.1.id ∧ r1.2.1.length = 2 := by
  exact ⟨by decide, by decide, by decide, by decide⟩

/-- Claim C6 (amended) — restricted to nonempty ids, which is every id the
service itself generates: two `getOrCreate` calls with the same known
nonempty id return the identical session and leave the session map and disk
untouched; two calls with no id return sessions under the two (distinct)
fresh uuid draws; a call with an unknown nonempty id creates a session under
exactly that id and persists it. -/
theorem get_or_create_conversation_contract
    (conversations : ConvStore) (disk : DiskStore) (cid : String)
    (conv : Conversation) (f1 f2 : String) :
    (¬ cid = "" → lookupAssoc conversations cid = some conv →
      get_or_create_conversation conversations disk (some cid) f1 = (conv, conversations, disk)
      ∧ get_or_create_conversation conversations disk (some cid) f2 = (conv, conversations, disk))
    ∧ (¬ f1 = f2 →
      (get_or_create_conversation conversations disk none f1).1.id = f1
      ∧ (get_or_create_conversation
          (get_or_create_conversation conversations disk none f1).2.1
          (get_or_create_conversation conversations disk none f1).2.2 none f2).1.id = f2
      ∧ ¬ (get_or_create_conversation conversations disk none f1).1.id
          = (get_or_create_conversation
              (get_or_create_conversation conversations disk none f1).2.1
              (get_or_create_conversation conversations disk none f1).2.2 none f2).1.id)
    ∧ (¬ cid = "" → lookupAssoc conversations cid = none →
      (get_or_create_conversation conversations disk (some cid) f1).1 = ⟨cid, [], []⟩
      ∧ lookupAssoc (get_or_create_conversation conversations disk (some cid) f1).2.1 cid
          = some ⟨cid, [], []⟩
      ∧ lookupAssoc (get_or_create_conversation conversations disk (some cid) f1).2.2 cid
          = some (SavedFile.valid ⟨cid, [], []⟩)) := by
  refine ⟨?_, ?_, ?_⟩
  · intro hne hk
    have ht : pyTruthy (some cid) = true := by simp [pyTruthy, hne]
    constructor <;> simp [get_or_create_conversation, existing_conversation, ht, hk]
  · intro hf
    have h1 : (get_or_create_conversation conversations disk none f1).1.id = f1 := by
      simp [get_or_create_conversation, existing_conversation, pyTruthy]
    have h2 : (get_or_create_conversation
        (get_or_create_conversation conversations disk none f1).2.1
        (get_or_create_conversation conversations disk none f1).2.2 none f2).1.id = f2 := by
      simp [get_or_create_conversation, existing_conversation, pyTruthy]
    refine ⟨h1, h2, ?_⟩
    rw [h1, h2]
    exact hf
  · intro hne hk
    have ht : pyTruthy (some cid) = true := by simp [pyTruthy, hne]
    refine ⟨?_, ?_, ?_⟩
    · simp [get_or_create_conversation, existing_conversation, ht, hk]
    · simp [get_or_create_conversation, existing_conversation, ht, hk,
        lookupAssoc_insertAssoc]
    · simp [get_or_create_conversation, existing_conversation, ht, hk,
        save_conversation, lookupAssoc_insertAssoc, serialize_conversation]

/-- Witness for the amended C6 theorem at concrete inputs: a known session
under id `"k"`, two fresh draws, and an unknown id `"new"`. -/
theorem get_or_create_conversation_contract_witness :
    (¬ "k" = ""
      ∧ lookupAssoc ([("k", ⟨"k", [⟨.human, "m"⟩], []⟩)] : ConvStore) "k"
          = some ⟨"k", [⟨.human, "m"⟩], []⟩
      ∧ ¬ "f1" = "f2")
    ∧ get_or_create_conversation [("k", ⟨"k", [⟨.human, "m"⟩], []⟩)] [] (some "k") "f1"
        = (⟨"k", [⟨.human, "m"⟩], []⟩, [("k", ⟨"k", [⟨.human, "m"⟩], []⟩)], [])
    ∧ (get_or_create_conversation ([] : ConvStore) [] none "f1").1.id = "f1"
    ∧ lookupAssoc (get_or_create_conversation ([] : ConvStore) [] (some "new") "f1").2.2 "new"
        = some (SavedFile.valid ⟨"new", [], []⟩) :=
  ⟨⟨by decide, by decide, by decide⟩,
    ((get_or_create_conversation_contract [("k", ⟨"k", [⟨.human, "m"⟩], []⟩)] []
      "k" ⟨"k", [⟨.human, "m"⟩], []⟩ "f1" "f2").1 (by decide) (by decide)).1,
    ((get_or_create_conversation_contract ([] : ConvStore) [] "k" ⟨"k", [], []⟩
      "f1" "f2").2.1 (by decide)).1,
    ((get_or_create_conversation_contract ([] : ConvStore) [] "new" ⟨"new", [], []⟩
      "f1" "f2").2.2 (by decide) (by decide)).2.2⟩

/-- Claim C7 — ingesting a CSV with `nrows` data rows yields a DocumentInfo
whose `total_pages` is `max 1 (nrows / 100)` (`len(df) // 100` with a minimum
of one page); in particular 250 rows give 2 pages and 0 rows give 1 page. -/
theorem ingest_csv_page_estimate
    (catalog : Catalog) (doc_id filename csv_text : String) (upload_date : Nat)
    (nrows : Nat) (chunks : List String) :
    (∃ d, (process_document catalog doc_id filename upload_date
        (some (process_csv csv_text nrows)) chunks true).result = .ok d
      ∧ d.total_pages = some (max 1 (nrows / 100)))
    ∧ (process_csv csv_text 250).2 = 2
    ∧ (process_csv csv_text 0).2 = 1 := by
  refine ⟨⟨⟨doc_id, filename, document_type_of filename, upload_date,
    some (max 1 (nrows / 100)), "processed", "completed", none⟩, ?_, rfl⟩, rfl, rfl⟩
  simp [process_document, process_csv]

/-- Claim C10 — `get_export_path` is the bare path-join of the export
directory and the request's filename, with no sanitization or containment
check: the filename is embedded verbatim, the download endpoint checks
existence of and serves exactly that joined path, and a filename with
parent-directory segments resolves to a path outside the export directory. -/
theorem export_path_join_unsanitized
    (export_dir filename : String) (files : String → Bool)
    (h1 : head_is_slash filename = false)
    (h2 : ¬ export_dir = "")
    (h3 : last_is_slash export_dir = false) :
    get_export_path export_dir filename = export_dir ++ "/" ++ filename
    ∧ (∀ p, download_file files export_dir filename = some p →
        p = get_export_path export_dir filename ∧ files p = true)
    ∧ resolve_path (get_export_path "/srv/exported_chats" "../secret.txt")
        = ["srv", "secret.txt"]
    ∧ (∀ t, ¬ resolve_path (get_export_path "/srv/exported_chats" "../secret.txt")
        = resolve_path "/srv/exported_chats" ++ t) := by
  refine ⟨?_, ?_, by decide, ?_⟩
  · simp [get_export_path, posix_join, h1, h2, h3]
  · intro p hp
    unfold download_file at hp
    by_cases hf : files (get_export_path export_dir filename) = true
    · rw [if_pos hf] at hp
      exact ⟨(Option.some.inj hp).symm, by rw [← Option.some.inj hp]; exact hf⟩
    · rw [if_neg hf] at hp
      exact absurd hp (by simp)
  · intro t h
    have e1 : resolve_path (get_export_path "/srv/exported_chats" "../secret.txt")
        = ["srv", "secret.txt"] := by decide
    have e2 : resolve_path "/srv/exported_chats" = ["srv", "exported_chats"] := by decide
    rw [e1, e2] at h
    simp only [List.cons_append, List.nil_append, List.cons.injEq] at h
    exact absurd h.2.1 (by decide)

/-- Witness for the C10 theorem at a concrete export directory and a
traversal filename. -/
theorem export_path_join_unsanitized_witness :
    (head_is_slash "../secret.txt" = false
      ∧ ¬ "/srv/exported_chats" = ""
      ∧ last_is_slash "/srv/exported_chats" = false)
    ∧ get_export_path "/srv/exported_chats" "../secret.txt"
        = "/srv/exported_chats" ++ "/" ++ "../secret.txt" :=
  ⟨⟨by decide, by decide, by decide⟩,
    (export_path_join_unsanitized "/srv/exported_chats" "../secret.txt" (fun _ => false)
      (by decide) (by decide) (by decide)).1⟩

/-- Claim C3 — whenever a chat call fails (session resolution, retrieval, or
generation), the stream ends with exactly one error event: it carries the
fixed apologetic message, the sources computed so far (empty if none), and
the conversation id (a fresh uuid when resolution itself failed); all
preceding events are ordinary ones, and no partial turn is appended to any
session or persisted.  The hypothesis `hna` records that the model's partial
outputs never coincide textually with the fixed apology string, which is what
lets an error event be recognized by its content on the wire. -/
theorem chat_failure_emits_single_error_event
    (conversations : ConvStore) (disk : DiskStore) (message : String)
    (conversation_id : Option String) (env : ChatEnv)
    (hfail : chat_fails conversations disk conversation_id env)
    (hna : ¬ apology_message
      ∈ (List.scanl (fun a b => a ++ b) "" (contentsOf env.genChunks)).tail) :
    error_terminal_outcome conversations disk message conversation_id env := by
  cases hres : resolved_conversation conversations disk conversation_id env with
  | none =>
    have key := get_streaming_response_unresolved message hres
    refine ⟨⟨[], ?_, by intro e he; simp at he⟩, ?_, ?_⟩
    · rw [key]
      unfold expected_error_sources expected_error_cid
      rw [hres]
      cases hret : env.retrieval <;> rfl
    · intro k c' h
      rw [key] at h
      exact Or.inl h
    · intro k r h
      rw [key] at h
      exact Or.inl h
  | some conv =>
    have key := get_streaming_response_resolved message hres
    have store := get_or_create_conversation_store conversations disk conversation_id
      env.freshConvId
    cases hret : env.retrieval with
    | none =>
      refine ⟨⟨[], ?_, by intro e he; simp at he⟩, ?_, ?_⟩
      · rw [key, after_resolve_retrieval_none _ _ _ _ hret]
        unfold expected_error_sources expected_error_cid
        rw [hres, hret]
        rfl
      · intro k c' h
        rw [key, (after_resolve_stores_on_failure _ _ _ _ (Or.inl hret)).1] at h
        exact store.1 k c' h
      · intro k r h
        rw [key, (after_resolve_stores_on_failure _ _ _ _ (Or.inl hret)).2] at h
        exact store.2 k r h
    | some docs =>
      have hg : env.genOk = false := by
        rcases hfail with h | h | h
        · rw [hres] at h; exact absurd h (by simp)
        · rw [hret] at h; exact absurd h (by simp)
        · exact h
      refine ⟨⟨⟨thinking_response, docs.map mkSource, conv.id, message⟩ ::
          streamingEvents "" (docs.map mkSource) conv.id message env.genChunks, ?_, ?_⟩,
          ?_, ?_⟩
      · rw [key]
        unfold after_resolve
        rw [hret]
        simp only [hg, Bool.false_eq_true, if_false]
        unfold expected_error_sources expected_error_cid
        rw [hres, hret]
        simp
      · intro e he
        rcases List.mem_cons.mp he with he | he
        · subst he
          exact (by decide : ¬ thinking_response = apology_message)
        · intro hcontra
          have hm : e.response ∈ (streamingEvents "" (docs.map mkSource) conv.id message
              env.genChunks).map (·.response) :=
            List.mem_map_of_mem _ he
          rw [streamingEvents_map_response] at hm
          rw [hcontra] at hm
          exact hna hm
      · intro k c' h
        rw [key, (after_resolve_stores_on_failure _ _ _ _ (Or.inr hg)).1] at h
        exact store.1 k c' h
      · intro k r h
        rw [key, (after_resolve_stores_on_failure _ _ _ _ (Or.inr hg)).2] at h
        exact store.2 k r h

/-- The world of a chat call whose generation step raises before producing
any increment. -/
def env_gen_fail : ChatEnv := ⟨true, some [], [], false, "c", "e"⟩

/-- Witness for the C3 theorem: a call on an empty store with no conversation
id whose generation raises immediately. -/
theorem chat_failure_emits_single_error_event_witness :
    (chat_fails ([] : ConvStore) ([] : DiskStore) none env_gen_fail
      ∧ ¬ apology_message
        ∈ (List.scanl (fun a b => a ++ b) "" (contentsOf env_gen_fail.genChunks)).tail)
    ∧ error_terminal_outcome [] [] "q" none env_gen_fail :=
  ⟨⟨Or.inr (Or.inr rfl), by simp [env_gen_fail, contentsOf]⟩,
    chat_failure_emits_single_error_event [] [] "q" none env_gen_fail
      (Or.inr (Or.inr rfl)) (by simp [env_gen_fail, contentsOf])⟩

/-- Claim C4 — the streaming-phase events of any chat call (the events
emitted inside the `async for` loop, between the thinking placeholder and
the terminal outcome) carry as `response` the full accumulated generated
text so far: their `response` fields are exactly the running concatenations
of the content increments (the `scanl` of string append), and consecutively
emitted streaming events are related by string extension — the later
`response` is the earlier one with a (possibly empty) suffix appended. -/
theorem chat_streaming_monotone
    (conversations : ConvStore) (disk : DiskStore) (message : String)
    (conversation_id : Option String) (env : ChatEnv) (conv : Conversation)
    (docs : List RetrievedDoc)
    (hconv : resolved_conversation conversations disk conversation_id env = some conv)
    (hret : env.retrieval = some docs) :
    (∃ rest, (get_streaming_response conversations disk message conversation_id env).events
      = ⟨thinking_response, docs.map mkSource, conv.id, message⟩ ::
        (streamingEvents "" (docs.map mkSource) conv.id message env.genChunks ++ rest))
    ∧ (streamingEvents "" (docs.map mkSource) conv.id message env.genChunks).map (·.response)
        = (List.scanl (fun a b => a ++ b) "" (contentsOf env.genChunks)).tail
    ∧ List.Chain' (fun e1 e2 => ∃ t, e2.response = e1.response ++ t)
        (streamingEvents "" (docs.map mkSource) conv.id message env.genChunks) := by
  refine ⟨?_, streamingEvents_map_response _ _ _ _ _, streamingEvents_chain' _ _ _ _ _⟩
  rw [get_streaming_response_resolved message hconv]
  exact after_resolve_events_shape _ _ _ _ _ hret

/-- The world of a chat call that retrieves one document and streams two
content increments to completion. -/
def env_stream : ChatEnv :=
  ⟨true, some [⟨"text one", some "a.pdf", some 2⟩], [.content "He", .content "llo"], true, "c", "e"⟩

/-- Witness for the C4 theorem at a concrete call with two increments. -/
theorem chat_streaming_monotone_witness :
    (resolved_conversation ([] : ConvStore) ([] : DiskStore) none env_stream
        = some ⟨"c", [], []⟩
      ∧ env_stream.retrieval = some [⟨"text one", some "a.pdf", some 2⟩])
    ∧ List.Chain' (fun e1 e2 => ∃ t, e2.response = e1.response ++ t)
        (streamingEvents "" ([⟨"text one", some "a.pdf", some 2⟩].map mkSource) "c" "q"
          env_stream.genChunks) :=
  ⟨⟨by decide, rfl⟩,
    (chat_streaming_monotone [] [] "q" none env_stream ⟨"c", [], []⟩
      [⟨"text one", some "a.pdf", some 2⟩] (by decide) rfl).2.2⟩

/-- Claim C5 — for every chat call that reaches generation, the prompt passed
to the generation capability is exactly the fixed system instruction, then
one synthetic user turn holding the retrieved context followed by the query,
then `history[-4:]`: at most the last 4 history entries, a suffix of the
session's history in chronological order, regardless of its total length. -/
theorem chat_prompt_history_capped
    (conversations : ConvStore) (disk : DiskStore) (message : String)
    (conversation_id : Option String) (env : ChatEnv) (conv : Conversation)
    (docs : List RetrievedDoc)
    (hconv : resolved_conversation conversations disk conversation_id env = some conv)
    (hret : env.retrieval = some docs) :
    (get_streaming_response conversations disk message conversation_id env).llmPrompt
      = some ([system_message,
          ⟨.human, "Context: " ++ String.intercalate "\n" (docs.map (·.page_content))
            ++ "\n\nQuestion: " ++ message⟩] ++ lastN 4 conv.history)
    ∧ (lastN 4 conv.history).length ≤ 4
    ∧ ∃ pre, pre ++ lastN 4 conv.history = conv.history := by
  refine ⟨?_, ?_, ⟨conv.history.take (conv.history.length - 4),
    List.take_append_drop _ _⟩⟩
  · rw [get_streaming_response_resolved message hconv,
      after_resolve_llmPrompt _ _ _ _ _ hret]
    unfold prompt_messages
    by_cases h : conv.history.isEmpty = true
    · rw [if_pos h, List.isEmpty_iff.mp h]
      simp [lastN]
    · rw [if_neg h]
  · simp only [lastN, List.length_drop]
    omega

/-- A session with three completed exchanges (six history entries). -/
def conv_six : Conversation :=
  ⟨"k", [⟨.human, "h1"⟩, ⟨.ai, "a1"⟩, ⟨.human, "h2"⟩, ⟨.ai, "a2"⟩,
    ⟨.human, "h3"⟩, ⟨.ai, "a3"⟩], []⟩

/-- The world of a chat call that retrieves nothing and completes without
increments. -/
def env_plain : ChatEnv := ⟨true, some [], [], true, "c", "e"⟩

/-- Witness for the C5 theorem: a call against a session with six history
entries; the prompt receives only the last four. -/
theorem chat_prompt_history_capped_witness :
    (resolved_conversation [("k", conv_six)] ([] : DiskStore) (some "k") env_plain
        = some conv_six
      ∧ env_plain.retrieval = some [])
    ∧ (get_streaming_response [("k", conv_six)] [] "q" (some "k") env_plain).llmPrompt
      = some ([system_message,
          ⟨.human, "Context: " ++ String.intercalate "\n"
            (([] : List RetrievedDoc).map (·.page_content)) ++ "\n\nQuestion: " ++ "q"⟩]
          ++ lastN 4 conv_six.history) :=
  ⟨⟨by decide, rfl⟩,
    (chat_prompt_history_capped [("k", conv_six)] [] "q" (some "k") env_plain conv_six []
      (by decide) rfl).1⟩

set_option maxRecDepth 10000 in
/-- Claim C8 (counterexample) — the snippet attached to a source is not a
prefix of the chunk's text: for a retrieved chunk whose text is `"hi"`, the
emitted source carries `content_snippet = "hi..."` (the code appends a
literal ellipsis after the 200-character cut), and no string `t` satisfies
`"hi" = "hi..." ++ t`, so the snippet is not a (fixed-length) prefix of the
chunk text. -/
theorem chat_source_snippet_carries_ellipsis :
    (get_streaming_response [] [] "q" none
        ⟨true, some [⟨"hi", some "doc.pdf", some 1⟩], [], true, "c", "e"⟩).events
      = [⟨thinking_response, [⟨"doc.pdf", 1, "hi..."⟩], "c", "q"⟩]
    ∧ ∀ t, ¬ ("hi" : String) = "hi..." ++ t := by
  refine ⟨by decide, ?_⟩
  intro t h
  have hl := congrArg String.length h
  rw [String.length_append] at hl
  have h2 : ("hi" : String).length = 2 := by decide
  have h5 : ("hi..." : String).length = 5 := by decide
  omega

/-- Claim C8 (amended) — every event a chat call emits carries one Source per
retrieved chunk, in order, holding the chunk's stored metadata
(`document_name` and `page_number`, with defaults `"Unknown"` and `1` when
absent) and as `content_snippet` the first 200 characters of the chunk's
text with a literal `"..."` appended. -/
theorem chat_sources_metadata_snippet
    (conversations : ConvStore) (disk : DiskStore) (message : String)
    (conversation_id : Option String) (env : ChatEnv) (conv : Conversation)
    (docs : List RetrievedDoc)
    (hconv : resolved_conversation conversations disk conversation_id env = some conv)
    (hret : env.retrieval = some docs) :
    ∀ e ∈ (get_streaming_response conversations disk message conversation_id env).events,
      e.sources = docs.map (fun d =>
        { document_name := d.document_name.getD "Unknown"
          page_number := d.page_number.getD 1
          content_snippet := d.page_content.take 200 ++ "..." }) := by
  intro e he
  rw [get_streaming_response_resolved message hconv] at he
  exact after_resolve_event_sources _ _ _ _ _ hret e he

/-- The world of a chat call that retrieves one document with full metadata
and streams one increment. -/
def env_one_doc : ChatEnv :=
  ⟨true, some [⟨"chunk text", some "doc.pdf", some 3⟩], [.content "ok"], true, "c", "e"⟩

set_option maxRecDepth 10000 in
/-- Witness for the amended C8 theorem at the thinking event of a concrete
call. -/
theorem chat_sources_metadata_snippet_witness :
    (resolved_conversation ([] : ConvStore) ([] : DiskStore) none env_one_doc
        = some ⟨"c", [], []⟩
      ∧ env_one_doc.retrieval = some [⟨"chunk text", some "doc.pdf", some 3⟩])
    ∧ (⟨thinking_response, [⟨"doc.pdf", 3, "chunk text..."⟩], "c", "q"⟩
        : StreamEvent).sources
      = [(⟨"chunk text", some "doc.pdf", some 3⟩ : RetrievedDoc)].map (fun d =>
        { document_name := d.document_name.getD "Unknown"
          page_number := d.page_number.getD 1
          content_snippet := d.page_content.take 200 ++ "..." }) :=
  ⟨⟨by decide, rfl⟩,
    chat_sources_metadata_snippet [] [] "q" none env_one_doc ⟨"c", [], []⟩
      [⟨"chunk text", some "doc.pdf", some 3⟩] (by decide) rfl _ (by decide)⟩

/-- Claim C9 — every event of one chat call (the thinking placeholder, each
streaming event, and the error event alike) is a record of the same four
fields; across all events of the call the `conversation_id` is the same, and
every event's `user_message` is exactly the message string passed in. -/
theorem chat_event_fields_uniform
    (conversations : ConvStore) (disk : DiskStore) (message : String)
    (conversation_id : Option String) (env : ChatEnv) :
    (∀ e ∈ (get_streaming_response conversations disk message conversation_id env).events,
      e.user_message = message)
    ∧ (∀ e1 ∈ (get_streaming_response conversations disk message conversation_id env).events,
      ∀ e2 ∈ (get_streaming_response conversations disk message conversation_id env).events,
        e1.conversation_id = e2.conversation_id) := by
  cases hres : resolved_conversation conversations disk conversation_id env with
  | none =>
    rw [get_streaming_response_unresolved message hres]
    constructor
    · intro e he
      rcases List.mem_singleton.mp he with rfl
      rfl
    · intro e1 h1 e2 h2
      rcases List.mem_singleton.mp h1 with rfl
      rcases List.mem_singleton.mp h2 with rfl
      rfl
  | some conv =>
    rw [get_streaming_response_resolved message hres]
    have hf := after_resolve_event_fields
      (get_or_create_conversation conversations disk conversation_id env.freshConvId).2.1
      (get_or_create_conversation conversations disk conversation_id env.freshConvId).2.2
      message env conv
    exact ⟨fun e he => (hf e he).2,
      fun e1 h1 e2 h2 => ((hf e1 h1).1).trans ((hf e2 h2).1).symm⟩

/-- The world of a chat call that retrieves nothing and streams one
increment to completion, so the call emits two events. -/
def env_two_events : ChatEnv := ⟨true, some [], [.content "a"], true, "c", "e"⟩

/-- Witness for the C9 theorem at the two events of a concrete call. -/
theorem chat_event_fields_uniform_witness :
    (⟨"a", [], "c", "q"⟩ : StreamEvent).user_message = "q"
    ∧ (⟨"a", [], "c", "q"⟩ : StreamEvent).conversation_id
      = (⟨thinking_response, [], "c", "q"⟩ : StreamEvent).conversation_id :=
  ⟨(chat_event_fields_uniform [] [] "q" none env_two_events).1 _ (by decide),
    (chat_event_fields_uniform [] [] "q" none env_two_events).2 _ (by decide) _ (by decide)⟩

end DeepseekBot
